import Mathlib

set_option maxRecDepth 100000

/-!
Verification of the OpenMetrics text encoder and the promlog level flag of
nokia/prometheus-common against its specification.

The repository ships the encoder's test file (src/expfmt/openmetrics_create_test.go)
and the logger configuration (src/promlog/log.go).  The encoder itself
(`MetricFamilyToOpenMetrics` in openmetrics_create.go) is not among the source
files, so it is modelled here from the specification (spec.md sections 3, 4.1 and 8)
and validated byte-for-byte against the expected outputs recorded in the
repository's own test file.

Finite float64 sample values are embedded as exact decimal numbers
`FloatVal.fin m d`, denoting the rational `m / 10 ^ d`.  The shortest
round-trippable rendering of such a value is its decimal-digit string with
trailing zeros removed, which the renderer below computes exactly.
-/

namespace OM

/-- Modelled from the spec (section 3): a metric value.  `fin m d` is the finite
decimal value `m / 10 ^ d`; the other constructors are the IEEE specials. -/
inductive FloatVal where
  | fin (m : Int) (d : Nat)
  | posInf
  | negInf
  | nan
deriving DecidableEq

/-- Modelled from the spec (section 3): a label name/value pair. -/
structure LabelPair where
  name : String
  value : String
deriving DecidableEq

/-- Modelled from the spec (section 3): an exemplar timestamp, mirroring the
protobuf timestamp used in the test file (seconds plus nanoseconds). -/
structure PbTimestamp where
  secs : Int
  nanos : Nat
deriving DecidableEq

/-- Modelled from the spec (section 3): an exemplar attached to a counter sample
or a histogram bucket. -/
structure ExemplarV where
  label : List LabelPair
  value : FloatVal
  timestamp : Option PbTimestamp
deriving DecidableEq

/-- Modelled from the spec (section 3): a counter payload. -/
structure CounterV where
  value : FloatVal
  exemplar : Option ExemplarV
deriving DecidableEq

/-- Modelled from the spec (section 3): a gauge payload. -/
structure GaugeV where
  value : FloatVal
deriving DecidableEq

/-- Modelled from the spec (section 3): an untyped payload. -/
structure UntypedV where
  value : FloatVal
deriving DecidableEq

/-- Modelled from the spec (section 3): one summary quantile. -/
structure QuantileV where
  quantile : FloatVal
  value : FloatVal
deriving DecidableEq

/-- Modelled from the spec (section 3): a summary payload. -/
structure SummaryV where
  sampleCount : Nat
  sampleSum : FloatVal
  quantile : List QuantileV
deriving DecidableEq

/-- Modelled from the spec (section 3): one histogram bucket. -/
structure BucketV where
  upperBound : FloatVal
  cumulativeCount : Nat
  exemplar : Option ExemplarV
deriving DecidableEq

/-- Modelled from the spec (section 3): a histogram payload. -/
structure HistogramV where
  sampleCount : Nat
  sampleSum : FloatVal
  bucket : List BucketV
deriving DecidableEq

/-- Modelled from the spec (section 3): the five metric kinds. -/
inductive MetricType where
  | counter
  | gauge
  | summary
  | untyped
  | histogram
deriving DecidableEq

/-- Modelled from the spec (section 3): one metric sample, mirroring the
protobuf Metric message (each payload is an optional field, the parent
family's type selects which one is read). -/
structure Metric where
  label : List LabelPair
  counter : Option CounterV
  gauge : Option GaugeV
  summary : Option SummaryV
  untyped : Option UntypedV
  histogram : Option HistogramV
  timestampMs : Option Int
deriving DecidableEq

/-- Modelled from the spec (section 3): a metric family, mirroring the protobuf
MetricFamily message (name and help are optional fields). -/
structure MetricFamily where
  name : Option String
  help : Option String
  type : MetricType
  metric : List Metric
deriving DecidableEq

/-- Strips factors of ten: returns `(n, z)` with `n * 10 ^ z` equal to the
input once the fuel (first argument) suffices. -/
def stripZerosAux : Nat → Nat → Nat × Nat
  | 0, n => (n, 0)
  | fuel+1, n =>
    if n % 10 = 0 ∧ n ≠ 0 then
      ((stripZerosAux fuel (n / 10)).1, (stripZerosAux fuel (n / 10)).2 + 1)
    else (n, 0)

/-- Strips all trailing decimal zeros from a natural number. -/
def stripZeros (n : Nat) : Nat × Nat := stripZerosAux n n

/-- Decimal digits of a natural number, accumulated most-significant first. -/
def natDigitsAux : Nat → Nat → List Char → List Char
  | 0, _, acc => acc
  | fuel+1, n, acc =>
    if n = 0 then acc else natDigitsAux fuel (n / 10) (Char.ofNat (48 + n % 10) :: acc)

/-- Decimal digit list of a natural number. -/
def natDigits (n : Nat) : List Char := if n = 0 then ['0'] else natDigitsAux n n []

/-- Decimal rendering of a natural number (used for u64 sample counts, which
render without any fractional part). -/
def natStr (n : Nat) : String := String.mk (natDigits n)

/-- Exponent field of a scientific-notation rendering: sign then at least two
digits, as in the spec (section 4.1, float formatting). -/
def expStr (e : Int) : String :=
  if e < 0 then "e-" ++ (if e.natAbs < 10 then "0" ++ natStr e.natAbs else natStr e.natAbs)
  else "e+" ++ (if e.natAbs < 10 then "0" ++ natStr e.natAbs else natStr e.natAbs)

/-- Modelled from the spec (section 4.1, float formatting, for the missing
openmetrics_create.go): renders the positive decimal whose shortest digit list
is `ds` with the decimal point after position `dp` (counted from the first
digit).  Scientific notation is used when the decimal exponent `dp - 1`
reaches 6 or falls below -4, matching the repository's expected outputs
(e.g. `1.23456789e+06`, `-1.23e-45`); otherwise the value is positional, and
an integral value gets the trailing `.0`. -/
def renderDigits (ds : List Char) (dp : Int) : String :=
  if 6 ≤ dp - 1 ∨ dp - 1 < -4 then
    String.mk (ds.take 1) ++
      ((if ds.length ≤ 1 then "" else "." ++ String.mk (ds.drop 1)) ++ expStr (dp - 1))
  else if dp ≤ 0 then
    "0." ++ (String.mk (List.replicate (0 - dp).toNat '0') ++ String.mk ds)
  else if (ds.length : Int) ≤ dp then
    (String.mk ds ++ String.mk (List.replicate (dp - ds.length).toNat '0')) ++ ".0"
  else
    String.mk (ds.take dp.toNat) ++ ("." ++ String.mk (ds.drop dp.toNat))

/-- Renders the nonzero finite decimal `n * 10 ^ z / 10 ^ d` (with `n` free of
trailing zeros, so its digits are the shortest representation). -/
def renderPos (n z d : Nat) : String :=
  renderDigits (natDigits n) (((natDigits n).length : Int) + z - d)

/-- Modelled from the spec (section 4.1, for the missing openmetrics_create.go):
renders the finite decimal `m / 10 ^ d`. -/
def renderFin (m : Int) (d : Nat) : String :=
  if m = 0 then "0.0"
  else
    (if m < 0 then "-" else "") ++
      renderPos (stripZeros m.natAbs).1 (stripZeros m.natAbs).2 d

/-- Modelled from the spec (section 4.1, for the missing openmetrics_create.go):
OpenMetrics rendering of a sample value.  The IEEE specials render as the bare
tokens; finite values render in shortest decimal or scientific form. -/
def renderOMFloat : FloatVal → String
  | .fin m d => renderFin m d
  | .posInf => "+Inf"
  | .negInf => "-Inf"
  | .nan => "NaN"

/-- First character of the classic name token grammar of the spec
(section 4.1, name quoting): letter, underscore or colon. -/
def isInitChar (c : Char) : Bool :=
  decide (('a' ≤ c ∧ c ≤ 'z') ∨ ('A' ≤ c ∧ c ≤ 'Z') ∨ c = '_' ∨ c = ':')

/-- Later characters of the classic name token grammar: additionally digits. -/
def isRestChar (c : Char) : Bool :=
  isInitChar c || decide ('0' ≤ c ∧ c ≤ '9')

/-- Modelled from the spec (section 4.1, name quoting, for the missing
openmetrics_create.go): whether a name fits the classic token grammar and so
can be emitted unquoted. -/
def isLegalName (s : String) : Bool :=
  match s.data with
  | [] => false
  | c :: cs => isInitChar c && cs.all isRestChar

/-- Escaping of one character in help text, label values and quoted names:
backslash, double quote and newline (spec section 4.1, shared rules, with
quotes escaped in OpenMetrics as the test expectations show). -/
def escChar (c : Char) : List Char :=
  if c = '\\' then ['\\', '\\']
  else if c = '\n' then ['\\', 'n']
  else if c = '"' then ['\\', '"']
  else [c]

/-- Modelled from the spec (section 4.1, shared rules, for the missing
openmetrics_create.go): OpenMetrics string escaping. -/
def escapeOM (s : String) : String :=
  String.mk (s.data.foldr (fun c acc => escChar c ++ acc) [])

/-- Whether the family name ends in the literal counter-total suffix. -/
def endsWithTotal (s : String) : Bool := decide ("_total".data <:+ s.data)

/-- The family name with a final `_total` suffix removed. -/
def stripTotal (s : String) : String := String.mk (s.data.take (s.data.length - 6))

/-- One rendered label pair: the name is quoted when it does not fit the
classic token grammar (spec section 4.1, name quoting). -/
def renderLP (lp : LabelPair) : String :=
  (if isLegalName lp.name then lp.name else "\"" ++ escapeOM lp.name ++ "\"") ++
    ("=\"" ++ (escapeOM lp.value ++ "\""))

/-- Comma-separated join of rendered label pairs. -/
def joinComma : List String → String
  | [] => ""
  | [x] => x
  | x :: y :: ys => x ++ ("," ++ joinComma (y :: ys))

/-- Label block following a quoted metric name inside the braces: each label is
preceded by a comma, and the block closes the brace. -/
def quotedTail : List String → String
  | [] => "\x7d"
  | l :: ls => "," ++ (l ++ quotedTail ls)

/-- Modelled from the spec (section 4.1, name quoting, for the missing
openmetrics_create.go): the name-and-label-block prefix of a sample line.  A
legal name stands bare with an optional brace block; an illegal name moves,
quoted, into the braces as a synthetic first label token. -/
def nameAndLabels (nm : String) (labels : List String) : String :=
  if isLegalName nm then
    if labels.isEmpty then nm else nm ++ ("\x7b" ++ (joinComma labels ++ "\x7d"))
  else
    "\x7b\"" ++ (escapeOM nm ++ ("\"" ++ quotedTail labels))

/-- Rendered exemplar timestamp (seconds, with fractional part from the
nanoseconds), per spec section 4.1 exemplar rendering. -/
def exTs : Option PbTimestamp → String
  | none => ""
  | some t => " " ++ renderOMFloat (.fin (t.secs * 10 ^ 9 + t.nanos) 9)

/-- Modelled from the spec (section 4.1, exemplar rendering, for the missing
openmetrics_create.go): the trailing exemplar comment of a sample line. -/
def exemplarStr (e : ExemplarV) : String :=
  " # \x7b" ++ (joinComma (e.label.map renderLP) ++ ("\x7d " ++ (renderOMFloat e.value ++ exTs e.timestamp)))

/-- End of a sample line: optional timestamp (milliseconds rendered as seconds,
that is divided by 1000, through the float rules), optional exemplar, newline. -/
def lineEnd : Option Int → Option ExemplarV → String
  | none, none => "\n"
  | some t, none => " " ++ (renderOMFloat (.fin t 3) ++ "\n")
  | none, some e => exemplarStr e ++ "\n"
  | some t, some e => " " ++ (renderOMFloat (.fin t 3) ++ (exemplarStr e ++ "\n"))

/-- Modelled from the spec (section 4.1, for the missing openmetrics_create.go):
one sample line. -/
def sampleLine (nm : String) (labels : List String) (value : String)
    (ts : Option Int) (ex : Option ExemplarV) : String :=
  nameAndLabels nm labels ++ (" " ++ (value ++ lineEnd ts ex))

/-- The rendered reserved `quantile` label of a summary sample line. -/
def quantileLabel (q : FloatVal) : String := "quantile=\"" ++ (renderOMFloat q ++ "\"")

/-- The rendered reserved `le` label of a histogram bucket line. -/
def leLabel (ub : FloatVal) : String := "le=\"" ++ (renderOMFloat ub ++ "\"")

/-- One quantile line of a summary metric. -/
def quantileLine (n : String) (lps : List String) (ts : Option Int) (q : QuantileV) : String :=
  sampleLine n (lps ++ [quantileLabel q.quantile]) (renderOMFloat q.value) ts none

/-- Modelled from the spec (section 4.1, per-type expansion, for the missing
openmetrics_create.go): the lines of one summary metric: one line per quantile
in the sequence's order, then the `_sum` line, then the `_count` line. -/
def summaryBody (n : String) (lps : List String) (ts : Option Int) (s : SummaryV) : String :=
  String.join (s.quantile.map (quantileLine n lps ts)) ++
    (sampleLine (n ++ "_sum") lps (renderOMFloat s.sampleSum) ts none ++
      sampleLine (n ++ "_count") lps (natStr s.sampleCount) ts none)

/-- Whether a bucket's upper bound is positive infinity. -/
def bucketIsInf (b : BucketV) : Bool :=
  match b.upperBound with
  | .posInf => true
  | _ => false

/-- The synthesized `+Inf` bucket: cumulative count equal to the metric's
sample count, no exemplar (spec section 3, histogram). -/
def infBucket (h : HistogramV) : BucketV := ⟨.posInf, h.sampleCount, none⟩

/-- One bucket line of a histogram metric. -/
def bucketLine (n : String) (lps : List String) (ts : Option Int) (b : BucketV) : String :=
  sampleLine (n ++ "_bucket") (lps ++ [leLabel b.upperBound]) (natStr b.cumulativeCount) ts b.exemplar

/-- Modelled from the spec (section 4.1, per-type expansion, for the missing
openmetrics_create.go): the lines of one histogram metric: one line per bucket,
with a `+Inf` bucket synthesized when none is present, then `_sum`, then
`_count`. -/
def histogramBody (n : String) (lps : List String) (ts : Option Int) (h : HistogramV) : String :=
  String.join
      ((if h.bucket.any bucketIsInf then h.bucket else h.bucket ++ [infBucket h]).map
        (bucketLine n lps ts)) ++
    (sampleLine (n ++ "_sum") lps (renderOMFloat h.sampleSum) ts none ++
      sampleLine (n ++ "_count") lps (natStr h.sampleCount) ts none)

/-- The error message for a sample whose payload does not match the family
type, naming the expected type (spec sections 4.1 and 7). -/
def errExpected (t : String) : String := "expected " ++ (t ++ " in metric")

/-- Modelled from the spec (section 4.1, per-type expansion, for the missing
openmetrics_create.go): the lines of one metric, or the type-mismatch error.
`cn` is the counter sample-line name (the family name with the `_total` suffix
normalized), `n` the family name used by all the other kinds. -/
def metricLines (ty : MetricType) (cn n : String) (m : Metric) : Except String String :=
  match ty with
  | .counter =>
    match m.counter with
    | none => .error (errExpected "counter")
    | some c => .ok (sampleLine cn (m.label.map renderLP) (renderOMFloat c.value) m.timestampMs c.exemplar)
  | .gauge =>
    match m.gauge with
    | none => .error (errExpected "gauge")
    | some g => .ok (sampleLine n (m.label.map renderLP) (renderOMFloat g.value) m.timestampMs none)
  | .untyped =>
    match m.untyped with
    | none => .error (errExpected "untyped")
    | some u => .ok (sampleLine n (m.label.map renderLP) (renderOMFloat u.value) m.timestampMs none)
  | .summary =>
    match m.summary with
    | none => .error (errExpected "summary")
    | some s => .ok (summaryBody n (m.label.map renderLP) m.timestampMs s)
  | .histogram =>
    match m.histogram with
    | none => .error (errExpected "histogram")
    | some h => .ok (histogramBody n (m.label.map renderLP) m.timestampMs h)

/-- Renders the metrics of a family in order, stopping at the first
type-mismatch error (spec section 4.1, failure modes). -/
def renderMetrics (g : Metric → Except String String) : List Metric → Except String String
  | [] => .ok ""
  | m :: ms =>
    match g m with
    | .error e => .error e
    | .ok s =>
      match renderMetrics g ms with
      | .error e => .error e
      | .ok r => .ok (s ++ r)

/-- The `# TYPE` keyword of a family: a counter family announces `counter` only
when its declared name carries the `_total` suffix, and `unknown` otherwise;
Untyped maps to `unknown` (spec section 4.1, header lines, and the test
expectations for counters without the suffix). -/
def typeKeyword (ty : MetricType) (total : Bool) : String :=
  match ty with
  | .counter => if total then "counter" else "unknown"
  | .gauge => "gauge"
  | .summary => "summary"
  | .untyped => "unknown"
  | .histogram => "histogram"

/-- The `# TYPE` line (with the type keyword) followed by the body. -/
def typeThenBody (disp tk body : String) : String :=
  "# TYPE " ++ (disp ++ (" " ++ (tk ++ ("\n" ++ body))))

/-- The header lines of a family: `# HELP` (omitted when help is absent or
empty) then `# TYPE`, then the body (spec section 4.1, header lines). -/
def headerThenBody (help : Option String) (disp tk body : String) : String :=
  match help with
  | none => typeThenBody disp tk body
  | some h =>
    if h = "" then typeThenBody disp tk body
    else "# HELP " ++ (disp ++ (" " ++ (escapeOM h ++ ("\n" ++ typeThenBody disp tk body))))

/-- Modelled from the spec (sections 4.1 and 8, for the missing
openmetrics_create.go, whose `MetricFamilyToOpenMetrics` only the test file
under src/ exercises): OpenMetrics encoding of one metric family, or its fatal
validation error.  A counter family whose declared name ends in `_total` has
the suffix stripped for the HELP/TYPE display name and re-added on the sample
lines; names outside the classic token grammar are emitted in quoted form. -/
def encodeFamily (f : MetricFamily) : Except String String :=
  match f.name with
  | none => .error "MetricFamily has no name"
  | some name =>
    if name = "" then .error "MetricFamily has no name"
    else
      let isTotal := match f.type with
        | .counter => endsWithTotal name
        | _ => false
      let shortName := if isTotal then stripTotal name else name
      let cname := if isTotal then stripTotal name ++ "_total" else name
      let disp := if isLegalName shortName then shortName else "\"" ++ (escapeOM shortName ++ "\"")
      (renderMetrics (metricLines f.type cname name) f.metric).map
        (fun body => headerThenBody f.help disp (typeKeyword f.type (endsWithTotal name)) body)

/-- A metric holding only a counter payload. -/
def counterM (lps : List LabelPair) (v : FloatVal) (ex : Option ExemplarV) (ts : Option Int) : Metric :=
  ⟨lps, some ⟨v, ex⟩, none, none, none, none, ts⟩

/-- A metric holding only a gauge payload. -/
def gaugeM (lps : List LabelPair) (v : FloatVal) (ts : Option Int) : Metric :=
  ⟨lps, none, some ⟨v⟩, none, none, none, ts⟩

/-- A metric holding only an untyped payload. -/
def untypedM (lps : List LabelPair) (v : FloatVal) (ts : Option Int) : Metric :=
  ⟨lps, none, none, none, some ⟨v⟩, none, ts⟩

/-- A metric holding only a summary payload. -/
def summaryM (lps : List LabelPair) (s : SummaryV) (ts : Option Int) : Metric :=
  ⟨lps, none, none, some s, none, none, ts⟩

/-- A metric holding only a histogram payload. -/
def histM (lps : List LabelPair) (h : HistogramV) (ts : Option Int) : Metric :=
  ⟨lps, none, none, none, none, some h, ts⟩

/-- Scenario 0 of the repository's TestCreateOpenMetrics: a counter family
whose name does not end in `_total`, with help escaping and a timestamp. -/
def scen0Fam : MetricFamily :=
  ⟨some "name", some "two-line\n doc  str\\ing", .counter,
    [counterM [⟨"labelname", "val1"⟩, ⟨"basename", "basevalue"⟩] (.fin 42 0) none none,
      counterM [⟨"labelname", "val2"⟩, ⟨"basename", "basevalue"⟩] (.fin 23 2) none (some 1234567890)]⟩

/-- The expected output of scenario 0 as recorded in the test file. -/
def scen0Out : String :=
  "# HELP name two-line\\n doc  str\\\\ing\n# TYPE name unknown\nname\x7blabelname=\"val1\",basename=\"basevalue\"\x7d 42.0\nname\x7blabelname=\"val2\",basename=\"basevalue\"\x7d 0.23 1.23456789e+06\n"

/-- Scenario 2 of TestCreateOpenMetrics: dots in the family name, no labels. -/
def dotsFam : MetricFamily :=
  ⟨some "name.with.dots", some "boring help", .counter,
    [counterM [] (.fin 42 0) none none,
      counterM [] (.fin 23 2) none (some 1234567890)]⟩

/-- The expected output of scenario 2 as recorded in the test file. -/
def dotsOut : String :=
  "# HELP \"name.with.dots\" boring help\n# TYPE \"name.with.dots\" unknown\n\x7b\"name.with.dots\"\x7d 42.0\n\x7b\"name.with.dots\"\x7d 0.23 1.23456789e+06\n"

/-- Scenario 6 of TestCreateOpenMetrics: a summary family with two metrics. -/
def summaryFam : MetricFamily :=
  ⟨some "summary_name", some "summary docstring", .summary,
    [summaryM [] ⟨42, .fin (-34567) 4,
        [⟨.fin 5 1, .fin (-123) 2⟩, ⟨.fin 9 1, .fin 2342354 7⟩, ⟨.fin 99 2, .fin 0 0⟩]⟩ none,
      summaryM [⟨"name_1", "value 1"⟩, ⟨"name_2", "value 2"⟩]
        ⟨4711, .fin 20101971 4,
          [⟨.fin 5 1, .fin 1 0⟩, ⟨.fin 9 1, .fin 2 0⟩, ⟨.fin 99 2, .fin 3 0⟩]⟩ none]⟩

/-- The expected output of scenario 6 as recorded in the test file. -/
def summaryOut : String :=
  "# HELP summary_name summary docstring\n# TYPE summary_name summary\nsummary_name\x7bquantile=\"0.5\"\x7d -1.23\nsummary_name\x7bquantile=\"0.9\"\x7d 0.2342354\nsummary_name\x7bquantile=\"0.99\"\x7d 0.0\nsummary_name_sum -3.4567\nsummary_name_count 42\nsummary_name\x7bname_1=\"value 1\",name_2=\"value 2\",quantile=\"0.5\"\x7d 1.0\nsummary_name\x7bname_1=\"value 1\",name_2=\"value 2\",quantile=\"0.9\"\x7d 2.0\nsummary_name\x7bname_1=\"value 1\",name_2=\"value 2\",quantile=\"0.99\"\x7d 3.0\nsummary_name_sum\x7bname_1=\"value 1\",name_2=\"value 2\"\x7d 2010.1971\nsummary_name_count\x7bname_1=\"value 1\",name_2=\"value 2\"\x7d 4711\n"

/-- A summary family whose quantile sequence lists 0.9 before 0.5 (descending
order). -/
def c7DescFam : MetricFamily :=
  ⟨some "summary_name", none, .summary,
    [summaryM [] ⟨42, .fin (-34567) 4,
        [⟨.fin 9 1, .fin 2342354 7⟩, ⟨.fin 5 1, .fin (-123) 2⟩]⟩ none]⟩

/-- The same summary family with its quantile sequence sorted ascending. -/
def c7AscFam : MetricFamily :=
  ⟨some "summary_name", none, .summary,
    [summaryM [] ⟨42, .fin (-34567) 4,
        [⟨.fin 5 1, .fin (-123) 2⟩, ⟨.fin 9 1, .fin 2342354 7⟩]⟩ none]⟩

/-- The output of the descending-quantile family: the 0.9 line precedes the
0.5 line. -/
def c7DescOut : String :=
  "# TYPE summary_name summary\nsummary_name\x7bquantile=\"0.9\"\x7d 0.2342354\nsummary_name\x7bquantile=\"0.5\"\x7d -1.23\nsummary_name_sum -3.4567\nsummary_name_count 42\n"

/-- The output of the ascending-quantile family: the 0.5 line precedes the
0.9 line. -/
def c7AscOut : String :=
  "# TYPE summary_name summary\nsummary_name\x7bquantile=\"0.5\"\x7d -1.23\nsummary_name\x7bquantile=\"0.9\"\x7d 0.2342354\nsummary_name_sum -3.4567\nsummary_name_count 42\n"

/-- Scenario 8 of TestCreateOpenMetrics: a histogram family whose buckets are
missing the `+Inf` bucket. -/
def hist8Fam : MetricFamily :=
  ⟨some "request_duration_microseconds", some "The response latency.", .histogram,
    [histM [] ⟨2693, .fin 17560473 1,
        [⟨.fin 100 0, 123, none⟩, ⟨.fin 120 0, 412, none⟩, ⟨.fin 144 0, 592, none⟩,
          ⟨.fin 1728 1, 1524, none⟩]⟩ none]⟩

/-- The expected output of scenarios 7 and 8 as recorded in the test file. -/
def hist8Out : String :=
  "# HELP request_duration_microseconds The response latency.\n# TYPE request_duration_microseconds histogram\nrequest_duration_microseconds_bucket\x7ble=\"100.0\"\x7d 123\nrequest_duration_microseconds_bucket\x7ble=\"120.0\"\x7d 412\nrequest_duration_microseconds_bucket\x7ble=\"144.0\"\x7d 592\nrequest_duration_microseconds_bucket\x7ble=\"172.8\"\x7d 1524\nrequest_duration_microseconds_bucket\x7ble=\"+Inf\"\x7d 2693\nrequest_duration_microseconds_sum 1.7560473e+06\nrequest_duration_microseconds_count 2693\n"

/-- Scenario 7 of TestCreateOpenMetrics: the same histogram with an explicit
`+Inf` bucket carrying the sample count. -/
def hist7Fam : MetricFamily :=
  ⟨some "request_duration_microseconds", some "The response latency.", .histogram,
    [histM [] ⟨2693, .fin 17560473 1,
        [⟨.fin 100 0, 123, none⟩, ⟨.fin 120 0, 412, none⟩, ⟨.fin 144 0, 592, none⟩,
          ⟨.fin 1728 1, 1524, none⟩, ⟨.posInf, 2693, none⟩]⟩ none]⟩

/-- Scenario 10 of TestCreateOpenMetrics: a counter family named `foos_total`,
also the spec's section 8 scenario. -/
def scen10Fam : MetricFamily :=
  ⟨some "foos_total", some "Number of foos.", .counter, [counterM [] (.fin 42 0) none none]⟩

/-- The expected output of scenario 10 as recorded in the test file. -/
def scen10Out : String :=
  "# HELP foos Number of foos.\n# TYPE foos counter\nfoos_total 42.0\n"

/-- The family of error scenario 0: no name. -/
def noNameFam : MetricFamily := ⟨none, some "doc string", .untyped, [untypedM [] .negInf none]⟩

/-- The family of error scenario 1: a counter family holding an untyped sample. -/
def wrongTypeFam : MetricFamily :=
  ⟨some "name", some "doc string", .counter, [untypedM [] .negInf none]⟩

/-- A minimal counter family whose name does not end in `_total`, as in
scenario 0 of the test file. -/
def c1Fam : MetricFamily := ⟨some "name", none, .counter, [counterM [] (.fin 42 0) none none]⟩

/-- A counter family over an arbitrary name with a single unlabelled sample. -/
def simpleCounterFam (nm : String) (v : FloatVal) : MetricFamily :=
  ⟨some nm, none, .counter, [counterM [] v none none]⟩

/-- A counter family with help text over an arbitrary name with a single
unlabelled sample. -/
def helpCounterFam (nm hp : String) (v : FloatVal) : MetricFamily :=
  ⟨some nm, some hp, .counter, [counterM [] v none none]⟩

/-- An untyped family over an arbitrary name with a single unlabelled sample
carrying an explicit timestamp in milliseconds. -/
def tsUntypedFam (nm : String) (v : FloatVal) (t : Int) : MetricFamily :=
  ⟨some nm, none, .untyped, [untypedM [] v (some t)]⟩

/-- The buckets of a metric's histogram payload, empty when it has none. -/
def histBuckets (m : Metric) : List BucketV :=
  match m.histogram with
  | none => []
  | some h => h.bucket

/-- The same metric with an explicit `+Inf` bucket carrying the sample count
appended to its histogram payload, when it has one. -/
def addInfMetric (m : Metric) : Metric :=
  { m with
    histogram := m.histogram.map fun h => ⟨h.sampleCount, h.sampleSum, h.bucket ++ [infBucket h]⟩ }

/-- The same family with an explicit `+Inf` bucket carrying the sample count
appended to every histogram payload. -/
def addInfBuckets (f : MetricFamily) : MetricFamily :=
  { f with metric := f.metric.map addInfMetric }

end OM

/-- The string `t` occurs contiguously inside the string `s`. -/
def containsStr (s t : String) : Prop := t.data <:+: s.data

instance (s t : String) : Decidable (containsStr s t) := by
  unfold containsStr; infer_instance

/-- The string `s` ends with the string `t`. -/
def endsWithStr (s t : String) : Prop := t.data <:+ s.data

instance (s t : String) : Decidable (endsWithStr s t) := by
  unfold endsWithStr; infer_instance

namespace Promlog

/-- The four go-kit level filter options used by promlog's AllowedLevel
(level.AllowDebug and friends), modelled as tags. -/
inductive LevelFilter where
  | debug
  | info
  | warn
  | error
deriving DecidableEq

/-- AllowedLevel from src/promlog/log.go: the stored severity string and the
stored filter option (the zero value holds no option yet). -/
structure AllowedLevel where
  s : String
  o : Option LevelFilter
deriving DecidableEq

/-- Go's `%q` verb on a string for the error message of Set, modelled as the
quoted string with backslash, quote and newline escaped. -/
def goQuote (s : String) : String := "\"" ++ (OM.escapeOM s ++ "\"")

/-- AllowedLevel.Set from src/promlog/log.go: recognizes exactly the four
severity strings, storing the matching filter option and the string; any other
input yields the `unrecognized log level` error and leaves the receiver
untouched.  The Go method mutates its receiver, so it is embedded as a
function from the old state to the new state paired with the optional error. -/
def AllowedLevel.set (l : AllowedLevel) (s : String) : AllowedLevel × Option String :=
  if s = "debug" then (⟨s, some .debug⟩, none)
  else if s = "info" then (⟨s, some .info⟩, none)
  else if s = "warn" then (⟨s, some .warn⟩, none)
  else if s = "error" then (⟨s, some .error⟩, none)
  else (l, some ("unrecognized log level " ++ goQuote s))

end Promlog

namespace OM

-- Renderer checks against every float value appearing in the repository's
-- test file expectations.
example : renderOMFloat (.fin 42 0) = "42.0" := by decide
example : renderOMFloat (.fin 23 2) = "0.23" := by decide
example : renderOMFloat (.fin 1234567890 3) = "1.23456789e+06" := by decide
example : renderOMFloat (.fin (314 * 10 ^ 40) 0) = "3.14e+42" := by decide
example : renderOMFloat (.fin (-123) 47) = "-1.23e-45" := by decide
example : renderOMFloat (.fin (-123) 2) = "-1.23" := by decide
example : renderOMFloat (.fin 2342354 7) = "0.2342354" := by decide
example : renderOMFloat (.fin 0 0) = "0.0" := by decide
example : renderOMFloat (.fin (-34567) 4) = "-3.4567" := by decide
example : renderOMFloat (.fin 1 0) = "1.0" := by decide
example : renderOMFloat (.fin 3 0) = "3.0" := by decide
example : renderOMFloat (.fin 20101971 4) = "2010.1971" := by decide
example : renderOMFloat (.fin 100 0) = "100.0" := by decide
example : renderOMFloat (.fin 1728 1) = "172.8" := by decide
example : renderOMFloat (.fin 17560473 1) = "1.7560473e+06" := by decide
example : renderOMFloat (.fin 5 1) = "0.5" := by decide
example : renderOMFloat (.fin 99 2) = "0.99" := by decide
example : renderOMFloat (.fin 123456 1) = "12345.6" := by decide
example : renderOMFloat (.fin 1199 1) = "119.9" := by decide
example : renderOMFloat .posInf = "+Inf" := by decide
example : renderOMFloat .negInf = "-Inf" := by decide

-- The model reproduces the repository's expected outputs byte-exactly.
example : encodeFamily scen0Fam = .ok scen0Out := rfl
example : encodeFamily dotsFam = .ok dotsOut := rfl
example : encodeFamily summaryFam = .ok summaryOut := rfl
example : encodeFamily hist8Fam = .ok hist8Out := rfl
example : encodeFamily hist7Fam = .ok hist8Out := rfl
example : encodeFamily scen10Fam = .ok scen10Out := rfl

-- Scenario 3 (gauge, escaping, infinity, multi-byte label values).
example :
    encodeFamily
      ⟨some "gauge_name", some "gauge\ndoc\nstr\"ing", .gauge,
        [gaugeM [⟨"name_1", "val with\nnew line"⟩, ⟨"name_2", "val with \\backslash and \"quotes\""⟩]
            .posInf none,
          gaugeM [⟨"name_1", "Björn"⟩, ⟨"name_2", "佖佥"⟩] (.fin (314 * 10 ^ 40) 0) none]⟩ =
      .ok "# HELP gauge_name gauge\\ndoc\\nstr\\\"ing\n# TYPE gauge_name gauge\ngauge_name\x7bname_1=\"val with\\nnew line\",name_2=\"val with \\\\backslash and \\\"quotes\\\"\"\x7d +Inf\ngauge_name\x7bname_1=\"Björn\",name_2=\"佖佥\"\x7d 3.14e+42\n" :=
  rfl

-- Scenario 4 (quoted gauge name with escaping, quoted label names).
example :
    encodeFamily
      ⟨some "gauge.name\"", some "gauge\ndoc\nstr\"ing", .gauge,
        [gaugeM [⟨"name.1", "val with\nnew line"⟩, ⟨"name*2", "val with \\backslash and \"quotes\""⟩]
            .posInf none,
          gaugeM [⟨"name.1", "Björn"⟩, ⟨"name*2", "佖佥"⟩] (.fin (314 * 10 ^ 40) 0) none]⟩ =
      .ok "# HELP \"gauge.name\\\"\" gauge\\ndoc\\nstr\\\"ing\n# TYPE \"gauge.name\\\"\" gauge\n\x7b\"gauge.name\\\"\",\"name.1\"=\"val with\\nnew line\",\"name*2\"=\"val with \\\\backslash and \\\"quotes\\\"\"\x7d +Inf\n\x7b\"gauge.name\\\"\",\"name.1\"=\"Björn\",\"name*2\"=\"佖佥\"\x7d 3.14e+42\n" :=
  rfl

-- Scenario 5 (untyped, no help, -Inf, a labeled sample).
example :
    encodeFamily
      ⟨some "unknown_name", none, .untyped,
        [untypedM [] .negInf none, untypedM [⟨"name_1", "value 1"⟩] (.fin (-123) 47) none]⟩ =
      .ok "# TYPE unknown_name unknown\nunknown_name -Inf\nunknown_name\x7bname_1=\"value 1\"\x7d -1.23e-45\n" :=
  rfl

-- Scenario 9 (histogram with missing +Inf bucket and exemplars).
example :
    encodeFamily
      ⟨some "request_duration_microseconds", some "The response latency.", .histogram,
        [histM [] ⟨2693, .fin 17560473 1,
            [⟨.fin 100 0, 123, none⟩,
              ⟨.fin 120 0, 412, some ⟨[⟨"foo", "bar"⟩], .fin 1199 1, some ⟨12345, 600000000⟩⟩⟩,
              ⟨.fin 144 0, 592, some ⟨[⟨"foo", "baz"⟩, ⟨"dings", "bums"⟩], .fin 14014 2, none⟩⟩,
              ⟨.fin 1728 1, 1524, none⟩]⟩ none]⟩ =
      .ok "# HELP request_duration_microseconds The response latency.\n# TYPE request_duration_microseconds histogram\nrequest_duration_microseconds_bucket\x7ble=\"100.0\"\x7d 123\nrequest_duration_microseconds_bucket\x7ble=\"120.0\"\x7d 412 # \x7bfoo=\"bar\"\x7d 119.9 12345.6\nrequest_duration_microseconds_bucket\x7ble=\"144.0\"\x7d 592 # \x7bfoo=\"baz\",dings=\"bums\"\x7d 140.14\nrequest_duration_microseconds_bucket\x7ble=\"172.8\"\x7d 1524\nrequest_duration_microseconds_bucket\x7ble=\"+Inf\"\x7d 2693\nrequest_duration_microseconds_sum 1.7560473e+06\nrequest_duration_microseconds_count 2693\n" :=
  rfl

-- Scenario 11 (counter family named name_total with no metrics).
example :
    encodeFamily ⟨some "name_total", some "doc string", .counter, []⟩ =
      .ok "# HELP name doc string\n# TYPE name counter\n" :=
  rfl

-- TestOpenMetricsCreateError scenarios: no name, and wrong payload type.
example :
    encodeFamily ⟨none, some "doc string", .untyped, [untypedM [] .negInf none]⟩ =
      .error "MetricFamily has no name" :=
  rfl

example :
    encodeFamily ⟨some "name", some "doc string", .counter, [untypedM [] .negInf none]⟩ =
      .error "expected counter in metric" :=
  rfl

end OM

theorem containsStr_append_right (a b : String) : containsStr (a ++ b) b :=
  ⟨a.data, [], by simp⟩

theorem endsWithStr_append (a b : String) : endsWithStr (a ++ b) b :=
  ⟨a.data, by simp⟩

namespace OM

theorem stripZerosAux_mul (fuel n : Nat) :
    (stripZerosAux fuel n).1 * 10 ^ (stripZerosAux fuel n).2 = n := by
  induction fuel generalizing n with
  | zero => simp [stripZerosAux]
  | succ k ih =>
    by_cases h : n % 10 = 0 ∧ n ≠ 0
    · have hd : 10 ∣ n := Nat.dvd_of_mod_eq_zero h.1
      simp only [stripZerosAux, if_pos h]
      rw [pow_succ, ← mul_assoc, ih (n / 10)]
      exact Nat.div_mul_cancel hd
    · simp [stripZerosAux, h]

theorem stripZerosAux_not_dvd (fuel n : Nat) (hn : n ≠ 0) (hf : n ≤ fuel) :
    ¬ 10 ∣ (stripZerosAux fuel n).1 := by
  induction fuel generalizing n with
  | zero => omega
  | succ k ih =>
    by_cases h : n % 10 = 0 ∧ n ≠ 0
    · simp only [stripZerosAux, if_pos h]
      have h10 : 10 ∣ n := Nat.dvd_of_mod_eq_zero h.1
      have hge : 10 ≤ n := Nat.le_of_dvd (Nat.pos_of_ne_zero hn) h10
      exact ih (n / 10) (by omega) (by omega)
    · simp only [stripZerosAux, if_neg h]
      intro hdvd
      exact h ⟨Nat.mod_eq_zero_of_dvd hdvd, hn⟩

theorem natDigitsAux_len_ge (fuel : Nat) : ∀ (n : Nat) (acc : List Char),
    acc.length ≤ (natDigitsAux fuel n acc).length := by
  induction fuel with
  | zero => intro n acc; simp [natDigitsAux]
  | succ k ih =>
    intro n acc
    by_cases h : n = 0
    · simp [natDigitsAux, h]
    · simp only [natDigitsAux, if_neg h]
      calc acc.length ≤ (Char.ofNat (48 + n % 10) :: acc).length := by simp
        _ ≤ _ := ih _ _

theorem natDigitsAux_len_le (fuel : Nat) : ∀ (n k : Nat) (acc : List Char),
    n < 10 ^ k → n ≤ fuel → (natDigitsAux fuel n acc).length ≤ k + acc.length := by
  induction fuel with
  | zero => intro n k acc _ _; simp [natDigitsAux]
  | succ f ih =>
    intro n k acc hk hf
    by_cases h : n = 0
    · simp [natDigitsAux, h]
    · simp only [natDigitsAux, if_neg h]
      cases k with
      | zero =>
        exfalso
        have : n < 1 := by simpa using hk
        omega
      | succ k' =>
        have hdiv : n / 10 < 10 ^ k' := by
          rw [Nat.div_lt_iff_lt_mul (by norm_num)]
          calc n < 10 ^ (k' + 1) := hk
            _ = 10 ^ k' * 10 := by ring
        have h2 := ih (n / 10) k' (Char.ofNat (48 + n % 10) :: acc) hdiv (by omega)
        simp only [List.length_cons] at h2
        omega

theorem natDigits_len_le (n k : Nat) (hn : n ≠ 0) (hk : n < 10 ^ k) :
    (natDigits n).length ≤ k := by
  unfold natDigits
  rw [if_neg hn]
  have := natDigitsAux_len_le n n k [] hk le_rfl
  simpa using this

theorem natDigits_len_pos (n : Nat) (hn : n ≠ 0) : 1 ≤ (natDigits n).length := by
  unfold natDigits
  rw [if_neg hn]
  obtain ⟨f, rfl⟩ : ∃ f, n = f + 1 := ⟨n - 1, by omega⟩
  simp only [natDigitsAux, if_neg hn]
  have := natDigitsAux_len_ge f ((f + 1) / 10) [Char.ofNat (48 + (f + 1) % 10)]
  simpa using this

theorem renderDigits_integral (ds : List Char) (dp : Int) (h1 : dp - 1 < 6)
    (h2 : ¬ dp - 1 < -4) (h3 : 0 < dp) (h4 : (ds.length : Int) ≤ dp) :
    renderDigits ds dp =
      (String.mk ds ++ String.mk (List.replicate (dp - ds.length).toNat '0')) ++ ".0" := by
  unfold renderDigits
  rw [if_neg (by rintro (h | h) <;> omega), if_neg (by omega), if_pos h4]

theorem renderMetrics_counter_err (cn n : String) (ms : List Metric)
    (h : ∃ m ∈ ms, m.counter = none) :
    renderMetrics (metricLines .counter cn n) ms = .error (errExpected "counter") := by
  induction ms with
  | nil => simp at h
  | cons m ms ih =>
    rcases h with ⟨m', hm', hc⟩
    rcases List.mem_cons.mp hm' with rfl | hm'
    · simp [renderMetrics, metricLines, hc]
    · cases hcm : m.counter with
      | none => simp [renderMetrics, metricLines, hcm]
      | some c => simp [renderMetrics, metricLines, hcm, ih ⟨m', hm', hc⟩]

/-- C3: a metric family whose name is missing or empty fails with the fatal
validation error `MetricFamily has no name`, whose message contains
`no name`; no such family encodes successfully. -/
theorem claim_C3 (f : MetricFamily) (h : f.name = none ∨ f.name = some "") :
    encodeFamily f = .error "MetricFamily has no name" ∧
      containsStr "MetricFamily has no name" "no name" := by
  refine ⟨?_, by decide⟩
  rcases h with h | h <;> simp [encodeFamily, h]

/-- C3 witness: the no-name family of the repository's error test. -/
theorem claim_C3_witness :
    encodeFamily noNameFam = .error "MetricFamily has no name" ∧
      containsStr "MetricFamily has no name" "no name" :=
  claim_C3 noNameFam (Or.inl rfl)

/-- C4: a counter family one of whose samples carries no counter payload (for
example an untyped sample) fails with the fatal validation error
`expected counter in metric`, whose message contains `expected counter`. -/
theorem claim_C4 (f : MetricFamily) (nm : String) (h1 : f.name = some nm) (h2 : nm ≠ "")
    (h3 : f.type = .counter) (h4 : ∃ m ∈ f.metric, m.counter = none) :
    encodeFamily f = .error (errExpected "counter") ∧
      containsStr (errExpected "counter") "expected counter" := by
  refine ⟨?_, by decide⟩
  simp [encodeFamily, h1, h2, h3, renderMetrics_counter_err _ _ _ h4, Except.map]

/-- C4 witness: the counter family holding an untyped sample from the
repository's error test. -/
theorem claim_C4_witness :
    encodeFamily wrongTypeFam = .error (errExpected "counter") ∧
      containsStr (errExpected "counter") "expected counter" :=
  claim_C4 wrongTypeFam "name" rfl (by decide) rfl ⟨untypedM [] .negInf none, by decide, rfl⟩

theorem str_append_empty (s : String) : s ++ "" = s := by
  cases s
  show String.mk _ = _
  simp

theorem join_append_one (a : List String) (x : String) :
    String.join (a ++ [x]) = String.join a ++ x := by
  simp [String.join, List.foldl_append]

theorem any_bucketIsInf_eq_false (bs : List BucketV)
    (hb : ∀ b ∈ bs, b.upperBound ≠ FloatVal.posInf) : bs.any bucketIsInf = false := by
  rw [List.any_eq_false]
  intro b hb'
  have hne := hb b hb'
  cases hub : b.upperBound with
  | posInf => exact absurd hub hne
  | fin q e => simp [bucketIsInf, hub]
  | negInf => simp [bucketIsInf, hub]
  | nan => simp [bucketIsInf, hub]

theorem metricLines_addInfMetric (cn n : String) (m : Metric)
    (hb : ∀ b ∈ histBuckets m, b.upperBound ≠ FloatVal.posInf) :
    metricLines .histogram cn n (addInfMetric m) = metricLines .histogram cn n m := by
  cases hm : m.histogram with
  | none => simp [metricLines, addInfMetric, hm]
  | some h =>
    have hany : h.bucket.any bucketIsInf = false := by
      refine any_bucketIsInf_eq_false h.bucket ?_
      intro b hb'
      exact hb b (by simp [histBuckets, hm, hb'])
    simp [metricLines, addInfMetric, hm, histogramBody, hany, List.any_append,
      bucketIsInf, infBucket]

theorem renderMetrics_addInf (cn n : String) (ms : List Metric)
    (h : ∀ m ∈ ms, ∀ b ∈ histBuckets m, b.upperBound ≠ FloatVal.posInf) :
    renderMetrics (metricLines .histogram cn n) (ms.map addInfMetric) =
      renderMetrics (metricLines .histogram cn n) ms := by
  induction ms with
  | nil => rfl
  | cons m ms ih =>
    have h1 := metricLines_addInfMetric cn n m (h m (by simp))
    have h2 := ih fun m' hm' b hb => h m' (by simp [hm']) b hb
    simp [renderMetrics, h1, h2]

/-- C2: a histogram family none of whose buckets has upper bound `+Inf`
encodes byte-identically to the same family with an explicit `+Inf` bucket
carrying the sample count appended; the synthesized bucket line is exactly the
line of that bucket, whose cumulative count is the metric's sample count. -/
theorem claim_C2 (f : MetricFamily) (h1 : f.type = .histogram)
    (h2 : ∀ m ∈ f.metric, ∀ b ∈ histBuckets m, b.upperBound ≠ FloatVal.posInf) :
    encodeFamily f = encodeFamily (addInfBuckets f) ∧
      (∀ (n : String) (lps : List String) (ts : Option Int) (h : HistogramV),
        (∀ b ∈ h.bucket, b.upperBound ≠ FloatVal.posInf) →
          histogramBody n lps ts h =
            (String.join (h.bucket.map (bucketLine n lps ts)) ++
                bucketLine n lps ts (infBucket h)) ++
              (sampleLine (n ++ "_sum") lps (renderOMFloat h.sampleSum) ts none ++
                sampleLine (n ++ "_count") lps (natStr h.sampleCount) ts none)) := by
  constructor
  · obtain ⟨nm, hp, ty, ms⟩ := f
    subst h1
    cases nm with
    | none => rfl
    | some s =>
      by_cases hs : s = ""
      · subst hs
        rfl
      · have hr := renderMetrics_addInf s s ms h2
        simp [encodeFamily, addInfBuckets, hs, hr]
  · intro n lps ts h hb
    have hany : h.bucket.any bucketIsInf = false := any_bucketIsInf_eq_false h.bucket hb
    simp only [histogramBody, hany, Bool.false_eq_true, if_false, List.map_append,
      List.map_cons, List.map_nil, join_append_one]

/-- C2 witness: the histogram family of scenario 8 of the test file (no `+Inf`
bucket) encodes identically to its explicit-`+Inf` variant. -/
theorem claim_C2_witness :
    (hist8Fam.type = .histogram ∧
        ∀ m ∈ hist8Fam.metric, ∀ b ∈ histBuckets m, b.upperBound ≠ FloatVal.posInf) ∧
      encodeFamily hist8Fam = encodeFamily (addInfBuckets hist8Fam) :=
  ⟨⟨rfl, by decide⟩, (claim_C2 hist8Fam rfl (by decide)).1⟩

theorem endsWithTotal_ne_empty (nm : String) (h : endsWithTotal nm = true) : nm ≠ "" := by
  intro he
  subst he
  exact absurd h (by decide)

theorem stripTotal_append_total (nm : String) (h : endsWithTotal nm = true) :
    stripTotal nm ++ "_total" = nm := by
  have hs : "_total".data <:+ nm.data := of_decide_eq_true h
  obtain ⟨t, ht⟩ := hs
  obtain ⟨l⟩ := nm
  have hl : t ++ "_total".data = l := ht
  subst hl
  show String.mk ((t ++ "_total".data).take ((t ++ "_total".data).length - 6)) ++ "_total" =
    String.mk (t ++ "_total".data)
  have h1 : (t ++ "_total".data).length - 6 = t.length := by simp
  have h2 : (t ++ "_total".data).take t.length = t := by simp
  rw [h1, h2]
  rfl

/-- C1 counterexample: the counter family `name` (scenario 0 of the test file)
is accepted, yet its sample line carries no `_total` suffix at all — the
emitted output does not even contain the substring `_total`. -/
theorem claim_C1_counterexample :
    encodeFamily c1Fam = .ok "# TYPE name unknown\nname 42.0\n" ∧
      ¬ containsStr "# TYPE name unknown\nname 42.0\n" "_total" :=
  ⟨rfl, by decide⟩

/-- C1 (amended): for a counter family whose declared name ends in `_total`,
the HELP and TYPE lines display the name with the suffix stripped, the sample
line name is the stripped name with `_total` re-added, and that re-addition
restores exactly the declared name; the spec's `foos_total` scenario encodes
to its expected three lines. -/
theorem claim_C1 (nm hp : String) (v : FloatVal) (h1 : endsWithTotal nm = true)
    (h2 : isLegalName (stripTotal nm) = true) :
    stripTotal nm ++ "_total" = nm ∧
      encodeFamily (helpCounterFam nm hp v) =
        .ok (headerThenBody (some hp) (stripTotal nm) "counter"
          (sampleLine (stripTotal nm ++ "_total") [] (renderOMFloat v) none none)) ∧
      encodeFamily scen10Fam = .ok scen10Out := by
  refine ⟨stripTotal_append_total nm h1, ?_, rfl⟩
  have h0 : nm ≠ "" := endsWithTotal_ne_empty nm h1
  simp [encodeFamily, helpCounterFam, renderMetrics, metricLines, counterM,
    typeKeyword, Except.map, h0, h1, h2, str_append_empty]

/-- C1 witness: the family `foos_total` of scenario 10 and of the spec's own
scenario. -/
theorem claim_C1_witness :
    (endsWithTotal "foos_total" = true ∧ isLegalName (stripTotal "foos_total") = true) ∧
      (stripTotal "foos_total" ++ "_total" = "foos_total" ∧
        encodeFamily (helpCounterFam "foos_total" "Number of foos." (.fin 42 0)) =
          .ok (headerThenBody (some "Number of foos.") (stripTotal "foos_total") "counter"
            (sampleLine (stripTotal "foos_total" ++ "_total") []
              (renderOMFloat (.fin 42 0)) none none)) ∧
        encodeFamily scen10Fam = .ok scen10Out) :=
  ⟨⟨by decide, by decide⟩,
    claim_C1 "foos_total" "Number of foos." (.fin 42 0) (by decide) (by decide)⟩

/-- C6: a family whose name falls outside the classic token grammar is encoded
in quoted form: with no labels the sample line is exactly
`\x7b"<name>"\x7d <value>`, the header lines quote the name, and a label pair
whose name falls outside the grammar is quoted the same way; the repository's
`name.with.dots` scenario encodes to its expected output. -/
theorem claim_C6 (nm : String) (v : FloatVal) (h0 : nm ≠ "") (h1 : isLegalName nm = false)
    (h2 : endsWithTotal nm = false) :
    encodeFamily (simpleCounterFam nm v) =
      .ok (headerThenBody none ("\"" ++ (escapeOM nm ++ "\"")) "unknown"
        (("\x7b\"" ++ (escapeOM nm ++ ("\"" ++ "\x7d"))) ++ (" " ++ (renderOMFloat v ++ "\n")))) ∧
      encodeFamily dotsFam = .ok dotsOut ∧
      (∀ lp : LabelPair, isLegalName lp.name = false →
        renderLP lp = ("\"" ++ escapeOM lp.name ++ "\"") ++ ("=\"" ++ (escapeOM lp.value ++ "\""))) := by
  refine ⟨?_, rfl, ?_⟩
  · simp [encodeFamily, simpleCounterFam, renderMetrics, metricLines, counterM,
      sampleLine, nameAndLabels, quotedTail, lineEnd, typeKeyword, Except.map,
      h0, h1, h2, str_append_empty]
  · intro lp h
    simp [renderLP, h]

/-- C6 witness: the family `name.with.dots` with one unlabelled sample of
value 42. -/
theorem claim_C6_witness :
    ("name.with.dots" ≠ "" ∧ isLegalName "name.with.dots" = false ∧
        endsWithTotal "name.with.dots" = false) ∧
      encodeFamily (simpleCounterFam "name.with.dots" (.fin 42 0)) =
        .ok (headerThenBody none ("\"" ++ (escapeOM "name.with.dots" ++ "\"")) "unknown"
          (("\x7b\"" ++ (escapeOM "name.with.dots" ++ ("\"" ++ "\x7d"))) ++
            (" " ++ (renderOMFloat (.fin 42 0) ++ "\n")))) :=
  ⟨⟨by decide, by decide, by decide⟩,
    (claim_C6 "name.with.dots" (.fin 42 0) (by decide) (by decide) (by decide)).1⟩

/-- C7 counterexample: a summary family whose quantile sequence lists 0.9
before 0.5 emits the 0.9 line before the 0.5 line — the encoder expands
quantiles in sequence order, not in ascending quantile order, so the output
differs from that of the same family with its quantiles sorted ascending. -/
theorem claim_C7_counterexample :
    encodeFamily c7DescFam = .ok c7DescOut ∧
      encodeFamily c7AscFam = .ok c7AscOut ∧ c7DescOut ≠ c7AscOut :=
  ⟨rfl, rfl, by decide⟩

/-- C7 (amended): a summary metric expands to one line per quantile in the
order of its quantile sequence — ascending exactly when the producer supplies
ascending quantiles — followed by the `_sum` and `_count` lines; the spec's
summary scenario (`summary_name`, count 42, sum -3.4567, ascending quantiles
0.5, 0.9, 0.99) encodes to its expected output, with the zero quantile value
rendered `0.0` by the integral-float rule. -/
theorem claim_C7 :
    encodeFamily summaryFam = .ok summaryOut ∧
      (∀ (cn n : String) (lps : List LabelPair) (s : SummaryV) (ts : Option Int),
        metricLines .summary cn n (summaryM lps s ts) =
          .ok (String.join (s.quantile.map (quantileLine n (lps.map renderLP) ts)) ++
            (sampleLine (n ++ "_sum") (lps.map renderLP) (renderOMFloat s.sampleSum) ts none ++
              sampleLine (n ++ "_count") (lps.map renderLP) (natStr s.sampleCount) ts none))) ∧
      renderOMFloat (.fin 0 0) = "0.0" :=
  ⟨rfl, fun _ _ _ _ _ => rfl, rfl⟩

/-- C8: a counter family whose name does not end in `_total` still encodes
successfully, with the TYPE keyword `unknown` and the family name used
verbatim on the sample line; scenario 0 of the test file encodes to its
expected output. -/
theorem claim_C8 (nm : String) (v : FloatVal) (h0 : nm ≠ "") (h1 : isLegalName nm = true)
    (h2 : endsWithTotal nm = false) :
    encodeFamily (simpleCounterFam nm v) =
      .ok (typeThenBody nm "unknown" (sampleLine nm [] (renderOMFloat v) none none)) ∧
      encodeFamily scen0Fam = .ok scen0Out := by
  refine ⟨?_, rfl⟩
  simp [encodeFamily, simpleCounterFam, renderMetrics, metricLines, counterM,
    headerThenBody, typeKeyword, Except.map, h0, h1, h2, str_append_empty]

/-- C8 witness: the counter family `name` with one unlabelled sample. -/
theorem claim_C8_witness :
    ("name" ≠ "" ∧ isLegalName "name" = true ∧ endsWithTotal "name" = false) ∧
      encodeFamily (simpleCounterFam "name" (.fin 42 0)) =
        .ok (typeThenBody "name" "unknown"
          (sampleLine "name" [] (renderOMFloat (.fin 42 0)) none none)) :=
  ⟨⟨by decide, by decide, by decide⟩,
    (claim_C8 "name" (.fin 42 0) (by decide) (by decide) (by decide)).1⟩

/-- C9: a sample's explicit millisecond timestamp is rendered on the sample
line as the seconds value (the milliseconds divided by 1000, that is
`fin t 3`) through the general float rules, so 1234567890 ms renders
`1.23456789e+06`; an exemplar timestamp likewise renders in seconds with its
fractional part, e.g. `12345.6`. -/
theorem claim_C9 (nm : String) (v : FloatVal) (t : Int) (h0 : nm ≠ "")
    (h1 : isLegalName nm = true) :
    encodeFamily (tsUntypedFam nm v t) =
      .ok (typeThenBody nm "unknown"
        (nm ++ (" " ++ (renderOMFloat v ++ (" " ++ (renderOMFloat (.fin t 3) ++ "\n")))))) ∧
      renderOMFloat (.fin 1234567890 3) = "1.23456789e+06" ∧
      exemplarStr ⟨[⟨"foo", "bar"⟩], .fin 1199 1, some ⟨12345, 600000000⟩⟩ =
        " # \x7bfoo=\"bar\"\x7d 119.9 12345.6" := by
  refine ⟨?_, rfl, rfl⟩
  simp [encodeFamily, tsUntypedFam, renderMetrics, metricLines, untypedM,
    headerThenBody, typeKeyword, sampleLine, nameAndLabels, lineEnd, Except.map,
    h0, h1, str_append_empty]

/-- C9 witness: the untyped family `name` with value 0.23 and timestamp
1234567890 ms. -/
theorem claim_C9_witness :
    ("name" ≠ "" ∧ isLegalName "name" = true) ∧
      encodeFamily (tsUntypedFam "name" (.fin 23 2) 1234567890) =
        .ok (typeThenBody "name" "unknown"
          ("name" ++ (" " ++ (renderOMFloat (.fin 23 2) ++
            (" " ++ (renderOMFloat (.fin 1234567890 3) ++ "\n")))))) :=
  ⟨⟨by decide, by decide⟩,
    (claim_C9 "name" (.fin 23 2) 1234567890 (by decide) (by decide)).1⟩

/-- C5 (amended): a finite integral sample value of magnitude below 10^6
renders with a trailing `.0`, and the infinities render as the bare tokens
`+Inf` and `-Inf`.  (`fin m d` is integral when `10 ^ d` divides `m`; the
magnitude bound keeps the rendering out of scientific notation.) -/
theorem claim_C5 (m : Int) (d : Nat) (h1 : ((10:Int) ^ d) ∣ m)
    (h2 : m.natAbs < 10 ^ 6 * 10 ^ d) :
    endsWithStr (renderOMFloat (.fin m d)) ".0" ∧
      renderOMFloat .posInf = "+Inf" ∧ renderOMFloat .negInf = "-Inf" := by
  refine ⟨?_, rfl, rfl⟩
  show endsWithStr (renderFin m d) ".0"
  by_cases hm : m = 0
  · rw [show renderFin m d = "0.0" by simp [renderFin, hm]]
    decide
  · unfold renderFin
    rw [if_neg hm]
    unfold renderPos
    have hn0 : m.natAbs ≠ 0 := Int.natAbs_ne_zero.mpr hm
    have hmul : (stripZeros m.natAbs).1 * 10 ^ (stripZeros m.natAbs).2 = m.natAbs :=
      stripZerosAux_mul _ _
    have hndvd : ¬ 10 ∣ (stripZeros m.natAbs).1 :=
      stripZerosAux_not_dvd _ _ hn0 le_rfl
    set n := (stripZeros m.natAbs).1 with hndef
    set z := (stripZeros m.natAbs).2 with hzdef
    have hnne : n ≠ 0 := by
      intro h
      rw [h, zero_mul] at hmul
      exact hn0 hmul.symm
    have hdvd : (10:Nat) ^ d ∣ m.natAbs := by
      have h3 := Int.natAbs_dvd_natAbs.mpr h1
      rw [Int.natAbs_pow] at h3
      simpa using h3
    have hzd : d ≤ z := by
      by_contra hcon
      push_neg at hcon
      rw [← hmul] at hdvd
      have hsplit : (10:Nat) ^ d = 10 ^ z * 10 ^ (d - z) := by
        rw [← pow_add]
        congr 1
        omega
      rw [hsplit, mul_comm n _] at hdvd
      have h5 : (10:Nat) ^ (d - z) ∣ n :=
        (mul_dvd_mul_iff_left (pow_ne_zero z (by norm_num : (10:Nat) ≠ 0))).mp hdvd
      exact hndvd (dvd_trans (dvd_pow_self 10 (by omega : d - z ≠ 0)) h5)
    have hzle : z ≤ 6 + d := by
      by_contra hcon
      push_neg at hcon
      have hle : (10:Nat) ^ z ≤ n * 10 ^ z := Nat.le_mul_of_pos_left _ (Nat.pos_of_ne_zero hnne)
      have hlt : (10:Nat) ^ z < 10 ^ (6 + d) := by
        calc (10:Nat) ^ z ≤ n * 10 ^ z := hle
          _ = m.natAbs := hmul
          _ < 10 ^ 6 * 10 ^ d := h2
          _ = 10 ^ (6 + d) := (pow_add 10 6 d).symm
      have := (Nat.pow_lt_pow_iff_right (by norm_num : 1 < 10)).mp hlt
      omega
    have hnlt : n < 10 ^ (6 + d - z) := by
      have hsplit : (10:Nat) ^ (6 + d) = 10 ^ (6 + d - z) * 10 ^ z := by
        rw [← pow_add]
        congr 1
        omega
      have hlt : n * 10 ^ z < 10 ^ (6 + d - z) * 10 ^ z := by
        rw [← hsplit, hmul]
        calc m.natAbs < 10 ^ 6 * 10 ^ d := h2
          _ = 10 ^ (6 + d) := (pow_add 10 6 d).symm
      exact Nat.lt_of_mul_lt_mul_right hlt
    have hnd_le : (natDigits n).length ≤ 6 + d - z := natDigits_len_le n _ hnne hnlt
    have hnd_pos : 1 ≤ (natDigits n).length := natDigits_len_pos n hnne
    rw [renderDigits_integral _ _ (by omega) (by omega) (by omega) (by omega)]
    rw [← String.append_assoc]
    exact endsWithStr_append _ _

/-- C5 witness: the integral value 42 renders as `42.0` with the trailing
`.0`. -/
theorem claim_C5_witness :
    (((10:Int) ^ (0:Nat)) ∣ 42 ∧ (42:Int).natAbs < 10 ^ 6 * 10 ^ 0) ∧
      (endsWithStr (renderOMFloat (.fin 42 0)) ".0" ∧
        renderOMFloat .posInf = "+Inf" ∧ renderOMFloat .negInf = "-Inf") :=
  ⟨⟨by norm_num, by norm_num⟩, claim_C5 42 0 (by norm_num) (by norm_num)⟩

/-- C5 counterexample: the integral sample value 3.14e42 (scenario 3 of the
test file) renders in scientific notation `3.14e+42`, without any trailing
`.0`. -/
theorem claim_C5_counterexample :
    ((10:Int) ^ (0:Nat)) ∣ (314 * 10 ^ 40 : Int) ∧
      renderOMFloat (.fin (314 * 10 ^ 40) 0) = "3.14e+42" ∧
      ¬ endsWithStr (renderOMFloat (.fin (314 * 10 ^ 40) 0)) ".0" := by
  refine ⟨by norm_num, rfl, by decide⟩

end OM

namespace Promlog

/-- C10: AllowedLevel.Set succeeds exactly on the four severity strings,
storing the string and the matching filter option; on any other string it
returns the `unrecognized log level` error, which quotes the offending value,
and leaves the stored level untouched. -/
theorem claim_C10 (l : AllowedLevel) (s : String) :
    ((l.set s).2 = none ↔ s = "debug" ∨ s = "info" ∨ s = "warn" ∨ s = "error") ∧
      (s = "debug" → l.set s = (⟨s, some .debug⟩, none)) ∧
      (s = "info" → l.set s = (⟨s, some .info⟩, none)) ∧
      (s = "warn" → l.set s = (⟨s, some .warn⟩, none)) ∧
      (s = "error" → l.set s = (⟨s, some .error⟩, none)) ∧
      (¬(s = "debug" ∨ s = "info" ∨ s = "warn" ∨ s = "error") →
        (l.set s).1 = l ∧
          (l.set s).2 = some ("unrecognized log level " ++ goQuote s) ∧
          containsStr ("unrecognized log level " ++ goQuote s) (goQuote s)) := by
  unfold AllowedLevel.set
  split_ifs with h1 h2 h3 h4 <;>
    simp_all [containsStr_append_right]

/-- C10 witness: the unrecognized severity `bogus` leaves the stored level
`info` untouched and reports the quoted value. -/
theorem claim_C10_witness :
    ¬(("bogus" = "debug" ∨ "bogus" = "info" ∨ "bogus" = "warn" ∨ "bogus" = "error")) ∧
      ((AllowedLevel.set ⟨"info", some .info⟩ "bogus").1 = ⟨"info", some .info⟩ ∧
        (AllowedLevel.set ⟨"info", some .info⟩ "bogus").2 =
          some ("unrecognized log level " ++ goQuote "bogus") ∧
        containsStr ("unrecognized log level " ++ goQuote "bogus") (goQuote "bogus")) :=
  ⟨by decide, (claim_C10 ⟨"info", some .info⟩ "bogus").2.2.2.2.2 (by decide)⟩

end Promlog

